import Mathlib

/-!
Verification development for the loan-server repayment ledger and
amount-reconciliation subsystem.

The definitions below are a shallow embedding of the route handlers in
`src/routes/applications.js` (status updates), `src/unnamed/part_001`
(the repayments router: read with lazy backfill, manual repayment) and
`src/unnamed/part_003` (the payments router: Stripe confirm), over the
record shape of `src/models/LoanApplication.js`.

Modelling conventions:
* JavaScript numbers are modelled as rationals (`ℚ`).  The mongoose
  schema defaults every numeric balance field (`totalAmount`,
  `paidAmount`, `remainingAmount`) to `0`, so a field that was never
  set reads back as `0`; JavaScript truthiness tests such as
  `!application.totalAmount || application.totalAmount === 0` are
  therefore embedded as equality with `0`.
* Dates are modelled as an abstract tick `now : ℕ` passed to each
  handler that stamps a date.
* Optional request-body strings are `Option String`; the handlers'
  `x || 'default'` fallbacks become `Option.getD`.
* Persistence: a handler that returns an error before `save()` leaves
  the stored record unchanged; this is made explicit by functions that
  return the record that is persisted after the request.
-/

/-- Lifecycle status of a loan application.  The mongoose schema enum is
`['Pending', 'Approved', 'Rejected']` (cancellation deletes the record). -/
inductive Status where
  | Pending
  | Approved
  | Rejected
  deriving DecidableEq

/-- Repayment progress of an application; schema enum
`['Pending', 'In Progress', 'Complete']`. -/
inductive RepaymentStatus where
  | Pending
  | InProgress
  | Complete
  deriving DecidableEq

/-- Application-fee state; schema enum `['Paid', 'Unpaid']`. -/
inductive FeeStatus where
  | Unpaid
  | Paid
  deriving DecidableEq

/-- One entry of the `repayments` array of `LoanApplication`. -/
structure Repayment where
  amount : ℚ
  paymentDate : ℕ
  transactionId : String
  paymentMethod : String
  deriving DecidableEq

/-- The `paymentDetails` subdocument recording the application-fee payment. -/
structure PaymentDetails where
  transactionId : Option String
  paymentDate : ℕ
  amount : ℚ
  deriving DecidableEq

/-- The fields of the `LoanApplication` mongoose model that the repayment
subsystem reads or writes.  Fields that the cited handlers never touch
(names, contact data, loan references, timestamps of creation) are omitted. -/
structure LoanApplication where
  userId : String
  loanAmount : ℚ
  interestRate : ℚ
  status : Status
  applicationFeeStatus : FeeStatus
  paymentDetails : Option PaymentDetails
  approvedAt : Option ℕ
  totalAmount : ℚ
  paidAmount : ℚ
  remainingAmount : ℚ
  repayments : List Repayment
  repaymentStatus : RepaymentStatus
  deriving DecidableEq

/-- The authenticated principal decoded from the bearer token by
`verifyToken` (`src/unnamed/part_000`). -/
structure Actor where
  userId : String
  role : String
  deriving DecidableEq

/-- Body of `PATCH /applications/:id/status`
(`src/routes/applications.js`, lines 128–152), after `verifyToken`,
`checkRole('admin','manager')` and the not-found guard.  The handler
assigns the requested status unconditionally; when the new status is
`Approved` it recomputes `totalAmount = loanAmount + loanAmount ×
interestRate / 100`, resets `remainingAmount` to that total, stamps
`approvedAt` and resets `repaymentStatus` to `Pending`. -/
def patchStatus (application : LoanApplication) (status : Status) (now : ℕ) :
    LoanApplication :=
  let application := { application with status := status }
  if status = Status.Approved then
    let interestAmount := application.loanAmount * application.interestRate / 100
    let totalAmount := application.loanAmount + interestAmount
    { application with
        approvedAt := some now
        totalAmount := totalAmount
        remainingAmount := totalAmount
        repaymentStatus := RepaymentStatus.Pending }
  else
    application

/-- The in-handler reconciliation of the manual repayment route
(`src/unnamed/part_001`, lines 113–124): backfill `totalAmount` when it
is unset/zero, then backfill `remainingAmount` when it is unset/zero or
negative, flooring at `0`. -/
def manualReconcile (application : LoanApplication) : LoanApplication :=
  let application :=
    if application.totalAmount = 0 then
      let interestAmount := application.loanAmount * application.interestRate / 100
      { application with totalAmount := application.loanAmount + interestAmount }
    else application
  if application.remainingAmount = 0 ∨ application.remainingAmount < 0 then
    let remainingAmount := application.totalAmount - application.paidAmount
    { application with
        remainingAmount := if remainingAmount < 0 then 0 else remainingAmount }
  else application

/-- Errors the manual repayment handler can report before saving.
`amountExceeds` carries the reconciled remaining balance that the
handler interpolates into the message `Payment amount exceeds remaining
balance. Maximum: $...`. -/
inductive RepayError where
  | invalidState
  | invalidAmount
  | amountExceeds (maximum : ℚ)
  deriving DecidableEq

/-- Body of `POST /repayments/:applicationId` (`src/unnamed/part_001`,
lines 91–169), after `verifyToken`, the not-found guard and the
owner-or-admin/manager authorization check.  Checks run in source
order: approved status, reconciliation, positive amount, amount within
the remaining balance; then the repayment entry is appended and the
balances and `repaymentStatus` recomputed.  An absent request `amount`
behaves like the invalid-amount case (`!amount`). -/
def recordRepayment (application : LoanApplication) (amount : ℚ)
    (transactionId paymentMethod : Option String) (now : ℕ) :
    Except RepayError LoanApplication :=
  if application.status ≠ Status.Approved then
    Except.error RepayError.invalidState
  else
    let application := manualReconcile application
    if amount = 0 ∨ amount ≤ 0 then
      Except.error RepayError.invalidAmount
    else if application.remainingAmount < amount then
      Except.error (RepayError.amountExceeds application.remainingAmount)
    else
      let entry : Repayment :=
        { amount := amount
          paymentDate := now
          transactionId := transactionId.getD ""
          paymentMethod := paymentMethod.getD "Stripe" }
      let application :=
        { application with repayments := application.repayments ++ [entry] }
      let application :=
        { application with paidAmount := application.paidAmount + amount }
      let application :=
        { application with
            remainingAmount := application.totalAmount - application.paidAmount }
      if application.remainingAmount ≤ 0 then
        Except.ok { application with
            repaymentStatus := RepaymentStatus.Complete
            remainingAmount := 0 }
      else
        Except.ok { application with repaymentStatus := RepaymentStatus.InProgress }

/-- The record persisted after a manual repayment request: the handler
calls `application.save()` only on the success path, so on any error
the stored record is the one that was read. -/
def savedAfterRepayment (application : LoanApplication) (amount : ℚ)
    (transactionId paymentMethod : Option String) (now : ℕ) : LoanApplication :=
  match recordRepayment application amount transactionId paymentMethod now with
  | Except.ok application2 => application2
  | Except.error _ => application

/-- Persisted effect of `GET /repayments/:applicationId`
(`src/unnamed/part_001`, lines 48–67): when `totalAmount` is zero, the
status is `Approved` and `loanAmount` is nonzero (truthy), the handler
writes `totalAmount = loanAmount + loanAmount × interestRate / 100`
back to the record, additionally setting `remainingAmount` to that
total when it was zero, and saves; otherwise nothing is saved. -/
def reconcileOnRead (application : LoanApplication) : LoanApplication :=
  if application.totalAmount = 0 ∧ application.status = Status.Approved ∧
      application.loanAmount ≠ 0 then
    let interestAmount := application.loanAmount * application.interestRate / 100
    let totalAmount := application.loanAmount + interestAmount
    let application := { application with totalAmount := totalAmount }
    if application.remainingAmount = 0 then
      { application with remainingAmount := totalAmount }
    else application
  else application

/-- The full balance view computed by `GET /repayments/:applicationId`
(`src/unnamed/part_001`, lines 48–75): the persisted backfill of
`reconcileOnRead` followed by the display-only repairs — a zero
`totalAmount` of a non-approved (or zero-principal) record is shown as
`loanAmount`, and a zero-or-negative `remainingAmount` is shown as
`totalAmount − paidAmount` floored at `0`. -/
def reconcileView (application : LoanApplication) : LoanApplication :=
  let saved := reconcileOnRead application
  let totalAmount :=
    if application.totalAmount = 0 then
      if application.status = Status.Approved ∧ application.loanAmount ≠ 0 then
        application.loanAmount + application.loanAmount * application.interestRate / 100
      else application.loanAmount
    else application.totalAmount
  let remainingAmount :=
    if saved.remainingAmount = 0 ∨ saved.remainingAmount < 0 then
      let r := totalAmount - application.paidAmount
      if r < 0 then 0 else r
    else saved.remainingAmount
  { saved with totalAmount := totalAmount, remainingAmount := remainingAmount }

/-- Body of `POST /payments/confirm` (`src/unnamed/part_003`, lines
144–190), after `verifyToken` and the not-found guard.  When the body
`type` is the string `'repayment'` the handler appends a repayment of
`amount / 100` (cents to dollars) stamped `paymentMethod = 'Stripe'`,
credits `paidAmount`, recomputes `remainingAmount` and
`repaymentStatus`; for any other `type` (including absent) it marks the
application fee paid and records the payment details.  It performs no
ownership, status, balance or duplicate-transaction check, and always
saves. -/
def confirmPayment (application : LoanApplication) (transactionId : Option String)
    (amount : ℚ) (typ : Option String) (now : ℕ) : LoanApplication :=
  if typ = some "repayment" then
    let repaymentAmount := amount / 100
    let entry : Repayment :=
      { amount := repaymentAmount
        paymentDate := now
        transactionId := transactionId.getD ""
        paymentMethod := "Stripe" }
    let application :=
      { application with repayments := application.repayments ++ [entry] }
    let application :=
      { application with paidAmount := application.paidAmount + repaymentAmount }
    let application :=
      { application with
          remainingAmount := application.totalAmount - application.paidAmount }
    if application.remainingAmount ≤ 0 then
      { application with
          repaymentStatus := RepaymentStatus.Complete
          remainingAmount := 0 }
    else
      { application with repaymentStatus := RepaymentStatus.InProgress }
  else
    { application with
        applicationFeeStatus := FeeStatus.Paid
        paymentDetails := some
          { transactionId := transactionId
            paymentDate := now
            amount := amount / 100 } }

/-- Outcome of the confirm route as seen by the client. -/
inductive ConfirmOutcome where
  | notFound
  | confirmed (application : LoanApplication)
  deriving DecidableEq

/-- The confirm route end to end: `verifyToken` has produced `actor`,
the application lookup produced `found`.  The handler body never reads
`actor` (`req.user` is unused after token verification), so the actor
binder is unused — exactly as in the source. -/
def confirmRoute (actor : Actor) (found : Option LoanApplication)
    (transactionId : Option String) (amount : ℚ) (typ : Option String)
    (now : ℕ) : ConfirmOutcome :=
  match found with
  | none => ConfirmOutcome.notFound
  | some application =>
      ConfirmOutcome.confirmed (confirmPayment application transactionId amount typ now)

/-- A representative freshly approved application: principal `1000` at
`10`\% interest, so `totalAmount = 1100`, nothing repaid yet. -/
def baseApp : LoanApplication :=
  { userId := "alice"
    loanAmount := 1000
    interestRate := 10
    status := Status.Approved
    applicationFeeStatus := FeeStatus.Unpaid
    paymentDetails := none
    approvedAt := some 0
    totalAmount := 1100
    paidAmount := 0
    remainingAmount := 1100
    repayments := []
    repaymentStatus := RepaymentStatus.Pending }

/-- `baseApp` after a repayment of `600` has been recorded. -/
def appMidway : LoanApplication :=
  { baseApp with
      paidAmount := 600
      remainingAmount := 500
      repayments :=
        [{ amount := 600, paymentDate := 1, transactionId := "tx_0",
           paymentMethod := "Stripe" }]
      repaymentStatus := RepaymentStatus.InProgress }

/-- A pending application whose derived balances are still zero. -/
def appPending : LoanApplication :=
  { baseApp with
      status := Status.Pending
      approvedAt := none
      totalAmount := 0
      remainingAmount := 0 }

/-- A rejected application whose derived balances are still zero. -/
def appRejected : LoanApplication :=
  { appPending with status := Status.Rejected }

/-- A legacy approved record with unset balances but a recorded payment:
`totalAmount = 0`, `remainingAmount = 0`, `paidAmount = 50`. -/
def appLegacyPaid : LoanApplication :=
  { baseApp with
      loanAmount := 100
      interestRate := 0
      totalAmount := 0
      remainingAmount := 0
      paidAmount := 50
      repayments :=
        [{ amount := 50, paymentDate := 1, transactionId := "tx_old",
           paymentMethod := "Stripe" }] }

/-- An authenticated borrower who does not own `baseApp`. -/
def mallory : Actor :=
  { userId := "mallory", role := "borrower" }

example : (confirmPayment baseApp (some "tx_1") 10000 (some "repayment") 0).paidAmount = 100 := by
  norm_num [confirmPayment, baseApp]

example : (patchStatus appMidway Status.Approved 5).remainingAmount = 1100 := by
  norm_num [patchStatus, appMidway, baseApp]

/-- C5: the manual repayment operation checks its preconditions in order with
the first failure winning — a non-approved status yields `invalidState`; for
an approved application a non-positive amount yields `invalidAmount`; a
positive amount exceeding the reconciled remaining balance yields an
invalid-amount error carrying the current remaining balance as the stated
maximum — and on every such failure the persisted record is unchanged. -/
theorem c5_manual_repayment_preconditions (application : LoanApplication)
    (amount : ℚ) (transactionId paymentMethod : Option String) (now : ℕ) :
    (application.status ≠ Status.Approved →
      recordRepayment application amount transactionId paymentMethod now =
        Except.error RepayError.invalidState ∧
      savedAfterRepayment application amount transactionId paymentMethod now =
        application) ∧
    (application.status = Status.Approved → amount ≤ 0 →
      recordRepayment application amount transactionId paymentMethod now =
        Except.error RepayError.invalidAmount ∧
      savedAfterRepayment application amount transactionId paymentMethod now =
        application) ∧
    (application.status = Status.Approved → 0 < amount →
      (manualReconcile application).remainingAmount < amount →
      recordRepayment application amount transactionId paymentMethod now =
        Except.error
          (RepayError.amountExceeds (manualReconcile application).remainingAmount) ∧
      savedAfterRepayment application amount transactionId paymentMethod now =
        application) := by
  refine ⟨?_, ?_, ?_⟩
  · intro h
    simp [recordRepayment, savedAfterRepayment, h]
  · intro h1 h2
    simp [recordRepayment, savedAfterRepayment, h1, h2]
  · intro h1 h2 h3
    have h4 : ¬ (amount = 0 ∨ amount ≤ 0) := by
      push_neg
      exact ⟨ne_of_gt h2, h2⟩
    simp [recordRepayment, savedAfterRepayment, h1, h4, h3]

/-- C5 witness: concrete instances of all three failure branches —
a pending application, a zero amount, and an overpayment of `1200`
against a remaining balance of `1100`. -/
theorem c5_manual_repayment_preconditions_witness :
    (recordRepayment appPending 100 none none 2 =
        Except.error RepayError.invalidState ∧
      savedAfterRepayment appPending 100 none none 2 = appPending) ∧
    (recordRepayment baseApp 0 none none 2 =
        Except.error RepayError.invalidAmount ∧
      savedAfterRepayment baseApp 0 none none 2 = baseApp) ∧
    (recordRepayment baseApp 1200 none none 2 =
        Except.error
          (RepayError.amountExceeds (manualReconcile baseApp).remainingAmount) ∧
      savedAfterRepayment baseApp 1200 none none 2 = baseApp) :=
  ⟨(c5_manual_repayment_preconditions appPending 100 none none 2).1
      (by simp [appPending, baseApp]),
   (c5_manual_repayment_preconditions baseApp 0 none none 2).2.1 rfl le_rfl,
   (c5_manual_repayment_preconditions baseApp 1200 none none 2).2.2 rfl
      (by norm_num) (by norm_num [manualReconcile, baseApp])⟩

/-- C10: for any body `type` other than the string `'repayment'` (including
an absent one), the confirm handler unconditionally marks the application
fee paid and overwrites `paymentDetails` with the supplied transaction id
and `amount / 100`, with no check of the previous fee status and no
validation of the amount. -/
theorem c10_confirm_fee_branch (application : LoanApplication)
    (transactionId : Option String) (amount : ℚ) (typ : Option String) (now : ℕ)
    (h : typ ≠ some "repayment") :
    confirmPayment application transactionId amount typ now =
      { application with
          applicationFeeStatus := FeeStatus.Paid
          paymentDetails := some
            { transactionId := transactionId
              paymentDate := now
              amount := amount / 100 } } := by
  simp [confirmPayment, h]

/-- C10 witness: an application whose fee is already `Paid` is overwritten
again by a confirm request with an absent `type`. -/
theorem c10_confirm_fee_branch_witness :
    confirmPayment { baseApp with applicationFeeStatus := FeeStatus.Paid }
        (some "tx_7") 1000 none 3 =
      { { baseApp with applicationFeeStatus := FeeStatus.Paid } with
          applicationFeeStatus := FeeStatus.Paid
          paymentDetails := some
            { transactionId := some "tx_7"
              paymentDate := 3
              amount := 1000 / 100 } } :=
  c10_confirm_fee_branch { baseApp with applicationFeeStatus := FeeStatus.Paid }
    (some "tx_7") 1000 none 3 (by simp)

/-- C8 counterexample: `mallory` is not the owner of `baseApp`, yet the
confirm route processes the request and mutates the record (`paidAmount`
changes), refuting the claim that a non-owner's confirmation is denied
and the record left unchanged. -/
theorem c8_counterexample_nonowner_confirm_mutates :
    mallory.userId ≠ baseApp.userId ∧
    confirmRoute mallory (some baseApp) (some "tx_9") 10000 (some "repayment") 0 =
      ConfirmOutcome.confirmed
        (confirmPayment baseApp (some "tx_9") 10000 (some "repayment") 0) ∧
    (confirmPayment baseApp (some "tx_9") 10000 (some "repayment") 0).paidAmount ≠
      baseApp.paidAmount := by
  refine ⟨by simp [mallory, baseApp], rfl, ?_⟩
  norm_num [confirmPayment, baseApp]

/-- C8 amended: POST /payments/confirm performs no ownership check — after
token verification the handler never reads the actor, so the outcome is
identical for every authenticated actor, owner or not. -/
theorem c8_amended_no_ownership_check (a b : Actor)
    (found : Option LoanApplication) (transactionId : Option String)
    (amount : ℚ) (typ : Option String) (now : ℕ) :
    confirmRoute a found transactionId amount typ now =
      confirmRoute b found transactionId amount typ now := rfl

/-- C1: replaying POST /payments/confirm with `type='repayment'` and an
unchanged `transactionId` appends a second ledger entry with the same
transaction id and credits `paidAmount` a second time — the handler has
no idempotency guard, contradicting the specified exactly-once
behaviour. -/
theorem c1_confirm_replay_double_credits :
    ((confirmPayment baseApp (some "tx_1") 10000 (some "repayment") 0).repayments.map
        Repayment.transactionId = ["tx_1"]) ∧
    (confirmPayment baseApp (some "tx_1") 10000 (some "repayment") 0).paidAmount = 100 ∧
    (confirmPayment (confirmPayment baseApp (some "tx_1") 10000 (some "repayment") 0)
        (some "tx_1") 10000 (some "repayment") 1).paidAmount = 200 ∧
    (confirmPayment (confirmPayment baseApp (some "tx_1") 10000 (some "repayment") 0)
        (some "tx_1") 10000 (some "repayment") 1).repayments.map
      Repayment.transactionId = ["tx_1", "tx_1"] := by
  norm_num [confirmPayment, baseApp]

/-- C3 counterexample: the confirm handler appends a repayment to a
`Pending` application, refuting the claim that no operation appends a
repayment outside the `Approved` state. -/
theorem c3_counterexample_pending_confirm_appends :
    appPending.status = Status.Pending ∧
    (confirmPayment appPending (some "tx_2") 5000 (some "repayment") 2).repayments.length
      = 1 := by
  constructor
  · rfl
  · norm_num [confirmPayment, appPending, baseApp]

/-- C3 amended: the manual repayment path appends only while the status is
`Approved` (any other status leaves the persisted record unchanged), but
the gateway confirm path appends a repayment for `type='repayment'`
regardless of the application's lifecycle status. -/
theorem c3_amended_append_only_guards :
    (∀ (application : LoanApplication) (amount : ℚ)
        (transactionId paymentMethod : Option String) (now : ℕ),
      application.status ≠ Status.Approved →
      savedAfterRepayment application amount transactionId paymentMethod now =
        application) ∧
    (∀ (application : LoanApplication) (transactionId : Option String)
        (amount : ℚ) (now : ℕ),
      (confirmPayment application transactionId amount (some "repayment") now).repayments =
        application.repayments ++
          [{ amount := amount / 100
             paymentDate := now
             transactionId := transactionId.getD ""
             paymentMethod := "Stripe" }]) := by
  constructor
  · intro application amount transactionId paymentMethod now h
    simp [savedAfterRepayment, recordRepayment, h]
  · intro application transactionId amount now
    simp only [confirmPayment, if_pos rfl]
    split_ifs <;> rfl

/-- C3 amended witness: the manual path leaves the pending application
`appPending` untouched. -/
theorem c3_amended_append_only_guards_witness :
    savedAfterRepayment appPending 5 none none 2 = appPending :=
  c3_amended_append_only_guards.1 appPending 5 none none 2
    (by simp [appPending, baseApp])

/-- C4 counterexample: patching a `Rejected` application to `Approved`
changes `totalAmount` from `0` to the computed principal-plus-interest,
refuting the claim that `totalAmount` is assigned only at the
Pending→Approved transition and that no transition out of `Rejected`
can re-trigger the computation. -/
theorem c4_counterexample_rejected_reapproval :
    appRejected.status = Status.Rejected ∧
    (patchStatus appRejected Status.Approved 7).status = Status.Approved ∧
    (patchStatus appRejected Status.Approved 7).totalAmount ≠
      appRejected.totalAmount := by
  refine ⟨rfl, rfl, ?_⟩
  norm_num [patchStatus, appRejected, appPending, baseApp]

/-- C4 amended: the status route assigns `totalAmount = loanAmount +
loanAmount × interestRate / 100` on every transition into `Approved`,
from any prior status (the route restricts no transition), and leaves it
unchanged on any other target status; the confirm handler never touches
`totalAmount`, and the manual repayment and read-backfill paths leave a
nonzero `totalAmount` unchanged. -/
theorem c4_amended_totalAmount_assignment :
    (∀ (application : LoanApplication) (status : Status) (now : ℕ),
      (patchStatus application status now).totalAmount =
        if status = Status.Approved then
          application.loanAmount + application.loanAmount * application.interestRate / 100
        else application.totalAmount) ∧
    (∀ (application : LoanApplication) (transactionId : Option String)
        (amount : ℚ) (typ : Option String) (now : ℕ),
      (confirmPayment application transactionId amount typ now).totalAmount =
        application.totalAmount) ∧
    (∀ (application : LoanApplication) (amount : ℚ)
        (transactionId paymentMethod : Option String) (now : ℕ),
      application.totalAmount ≠ 0 →
      (savedAfterRepayment application amount transactionId paymentMethod now).totalAmount =
        application.totalAmount) ∧
    (∀ application : LoanApplication, application.totalAmount ≠ 0 →
      reconcileOnRead application = application) := by
  refine ⟨?_, ?_, ?_, ?_⟩
  · intro application status now
    simp only [patchStatus]
    split_ifs <;> rfl
  · intro application transactionId amount typ now
    simp only [confirmPayment]
    split_ifs <;> rfl
  · intro application amount transactionId paymentMethod now h
    simp only [savedAfterRepayment, recordRepayment, manualReconcile, if_neg h]
    split_ifs <;> rfl
  · intro application h
    simp [reconcileOnRead, h]

/-- C4 amended witness: a repayment of `600` against `baseApp`
(whose `totalAmount` is the nonzero `1100`) leaves `totalAmount`
unchanged, and re-reading `baseApp` changes nothing. -/
theorem c4_amended_totalAmount_assignment_witness :
    (savedAfterRepayment baseApp 600 none none 1).totalAmount =
        baseApp.totalAmount ∧
    reconcileOnRead baseApp = baseApp :=
  ⟨c4_amended_totalAmount_assignment.2.2.1 baseApp 600 none none 1
      (by norm_num [baseApp]),
   c4_amended_totalAmount_assignment.2.2.2 baseApp (by norm_num [baseApp])⟩

/-- C6 counterexample: re-patching the half-repaid `appMidway` to
`Approved` stores `repaymentStatus = Pending` although
`0 < paidAmount < totalAmount`, for which the claimed pure function
yields `InProgress`. -/
theorem c6_counterexample_reapproval_resets_status :
    (patchStatus appMidway Status.Approved 5).repaymentStatus =
      RepaymentStatus.Pending ∧
    0 < (patchStatus appMidway Status.Approved 5).paidAmount ∧
    (patchStatus appMidway Status.Approved 5).paidAmount <
      (patchStatus appMidway Status.Approved 5).totalAmount ∧
    (patchStatus appMidway Status.Approved 5).repaymentStatus ≠
      RepaymentStatus.InProgress := by
  refine ⟨rfl, ?_, ?_, by simp [patchStatus]⟩ <;>
    norm_num [patchStatus, appMidway, baseApp]

/-- C6 amended: after each successful repayment (manual or
gateway-confirmed), `repaymentStatus` is `Complete` when
`totalAmount ≤ paidAmount` and `InProgress` otherwise; the approval
route resets `repaymentStatus` to `Pending` unconditionally, whatever
`paidAmount` is. -/
theorem c6_amended_repaymentStatus_derivation :
    (∀ (application : LoanApplication) (amount : ℚ)
        (transactionId paymentMethod : Option String) (now : ℕ)
        (application2 : LoanApplication),
      recordRepayment application amount transactionId paymentMethod now =
        Except.ok application2 →
      application2.repaymentStatus =
        if application2.totalAmount ≤ application2.paidAmount then
          RepaymentStatus.Complete
        else RepaymentStatus.InProgress) ∧
    (∀ (application : LoanApplication) (transactionId : Option String)
        (amount : ℚ) (now : ℕ),
      (confirmPayment application transactionId amount (some "repayment") now).repaymentStatus =
        if (confirmPayment application transactionId amount (some "repayment") now).totalAmount ≤
            (confirmPayment application transactionId amount (some "repayment") now).paidAmount
        then RepaymentStatus.Complete
        else RepaymentStatus.InProgress) ∧
    (∀ (application : LoanApplication) (now : ℕ),
      (patchStatus application Status.Approved now).repaymentStatus =
        RepaymentStatus.Pending) := by
  refine ⟨?_, ?_, ?_⟩
  · intro application amount transactionId paymentMethod now application2 h
    simp only [recordRepayment] at h
    split_ifs at h with h1 h2 h3 h4
    · simp only [Except.ok.injEq] at h
      subst h
      simp_all [sub_nonpos]
    · simp only [Except.ok.injEq] at h
      subst h
      simp_all [sub_nonpos]
      rw [if_neg (not_le.mpr h4)]
  · intro application transactionId amount now
    simp only [confirmPayment, if_pos rfl]
    split_ifs <;> simp_all [sub_nonpos]
  · intro application now
    simp [patchStatus]

/-- C2 counterexample: re-patching the half-repaid `appMidway` to
`Approved` succeeds and stores `remainingAmount = totalAmount = 1100`
although `paidAmount = 600`, so the stored `remainingAmount` differs
from `max(0, totalAmount − paidAmount) = 500`. -/
theorem c2_counterexample_reapproval_breaks_invariant :
    (patchStatus appMidway Status.Approved 5).remainingAmount ≠
      max 0 ((patchStatus appMidway Status.Approved 5).totalAmount -
        (patchStatus appMidway Status.Approved 5).paidAmount) := by
  norm_num [patchStatus, appMidway, baseApp, max_def]

/-- Unfolding of the repayment branch of the confirm handler: the typ
test succeeds definitionally, leaving the balance update guarded by the
sign of the new remaining amount. -/
theorem confirmPayment_repayment_eq (application : LoanApplication)
    (transactionId : Option String) (amount : ℚ) (now : ℕ) :
    confirmPayment application transactionId amount (some "repayment") now =
      (if application.totalAmount - (application.paidAmount + amount / 100) ≤ 0 then
        { application with
            repayments := application.repayments ++
              [{ amount := amount / 100, paymentDate := now,
                 transactionId := transactionId.getD "",
                 paymentMethod := "Stripe" }]
            paidAmount := application.paidAmount + amount / 100
            remainingAmount := 0
            repaymentStatus := RepaymentStatus.Complete }
      else
        { application with
            repayments := application.repayments ++
              [{ amount := amount / 100, paymentDate := now,
                 transactionId := transactionId.getD "",
                 paymentMethod := "Stripe" }]
            paidAmount := application.paidAmount + amount / 100
            remainingAmount :=
              application.totalAmount - (application.paidAmount + amount / 100)
            repaymentStatus := RepaymentStatus.InProgress }) := rfl

/-- Unfolding of the approval branch of the status route. -/
theorem patchStatus_approved_eq (application : LoanApplication) (now : ℕ) :
    patchStatus application Status.Approved now =
      { application with
          status := Status.Approved
          approvedAt := some now
          totalAmount := application.loanAmount +
            application.loanAmount * application.interestRate / 100
          remainingAmount := application.loanAmount +
            application.loanAmount * application.interestRate / 100
          repaymentStatus := RepaymentStatus.Pending } := rfl

/-- C2 amended: `remainingAmount = max(0, totalAmount − paidAmount)`
holds after every successful manual repayment and after every
gateway-confirmed repayment; the approval transition and the
read-triggered backfill instead set `remainingAmount = totalAmount`
directly, which satisfies the invariant only when `paidAmount = 0`
(with non-negative loan terms). -/
theorem c2_amended_remaining_invariant :
    (∀ (application : LoanApplication) (amount : ℚ)
        (transactionId paymentMethod : Option String) (now : ℕ)
        (application2 : LoanApplication),
      recordRepayment application amount transactionId paymentMethod now =
        Except.ok application2 →
      application2.remainingAmount =
        max 0 (application2.totalAmount - application2.paidAmount)) ∧
    (∀ (application : LoanApplication) (transactionId : Option String)
        (amount : ℚ) (now : ℕ),
      (confirmPayment application transactionId amount (some "repayment") now).remainingAmount =
        max 0
          ((confirmPayment application transactionId amount (some "repayment") now).totalAmount -
            (confirmPayment application transactionId amount (some "repayment") now).paidAmount)) ∧
    (∀ (application : LoanApplication) (now : ℕ),
      application.paidAmount = 0 → 0 ≤ application.loanAmount →
      0 ≤ application.interestRate →
      (patchStatus application Status.Approved now).remainingAmount =
        max 0 ((patchStatus application Status.Approved now).totalAmount -
          (patchStatus application Status.Approved now).paidAmount)) ∧
    (∀ application : LoanApplication,
      application.paidAmount = 0 → application.totalAmount = 0 →
      application.remainingAmount = 0 → 0 ≤ application.loanAmount →
      0 ≤ application.interestRate →
      (reconcileOnRead application).remainingAmount =
        max 0 ((reconcileOnRead application).totalAmount -
          (reconcileOnRead application).paidAmount)) := by
  refine ⟨?_, ?_, ?_, ?_⟩
  · intro application amount transactionId paymentMethod now application2 h
    simp only [recordRepayment] at h
    split_ifs at h with h1 h2 h3 h4
    · simp only [Except.ok.injEq] at h
      subst h
      refine Eq.symm (max_eq_left ?_)
      show (manualReconcile application).totalAmount -
          ((manualReconcile application).paidAmount + amount) ≤ 0
      exact h4
    · simp only [Except.ok.injEq] at h
      subst h
      refine Eq.symm (max_eq_right ?_)
      show (0:ℚ) ≤ (manualReconcile application).totalAmount -
          ((manualReconcile application).paidAmount + amount)
      push_neg at h4
      linarith
  · intro application transactionId amount now
    rw [confirmPayment_repayment_eq]
    split_ifs with hc
    · refine Eq.symm (max_eq_left ?_)
      show application.totalAmount - (application.paidAmount + amount / 100) ≤ 0
      exact hc
    · refine Eq.symm (max_eq_right ?_)
      show (0:ℚ) ≤ application.totalAmount - (application.paidAmount + amount / 100)
      push_neg at hc
      linarith
  · intro application now h0 hl hr
    have hT : 0 ≤ application.loanAmount +
        application.loanAmount * application.interestRate / 100 :=
      add_nonneg hl (div_nonneg (mul_nonneg hl hr) (by norm_num))
    rw [patchStatus_approved_eq]
    show application.loanAmount +
        application.loanAmount * application.interestRate / 100 =
      max 0 (application.loanAmount +
        application.loanAmount * application.interestRate / 100 -
          application.paidAmount)
    rw [h0, sub_zero]
    exact (max_eq_right hT).symm
  · intro application h0 ht hr hl hi
    have hT : 0 ≤ application.loanAmount +
        application.loanAmount * application.interestRate / 100 :=
      add_nonneg hl (div_nonneg (mul_nonneg hl hi) (by norm_num))
    by_cases h : application.totalAmount = 0 ∧ application.status = Status.Approved ∧
        application.loanAmount ≠ 0
    · simp only [reconcileOnRead, if_pos h]
      split_ifs
      show application.loanAmount +
          application.loanAmount * application.interestRate / 100 =
        max 0 (application.loanAmount +
          application.loanAmount * application.interestRate / 100 -
            application.paidAmount)
      rw [h0, sub_zero]
      exact (max_eq_right hT).symm
    · simp only [reconcileOnRead, if_neg h]
      rw [hr, ht, h0]
      simp

/-- C2 amended witness: concrete instances — a manual repayment of `600`
against `baseApp`, a first approval with `paidAmount = 0`, and a read of
the pending record `appPending`. -/
theorem c2_amended_remaining_invariant_witness :
    ((savedAfterRepayment baseApp 600 none none 1).remainingAmount =
      max 0 ((savedAfterRepayment baseApp 600 none none 1).totalAmount -
        (savedAfterRepayment baseApp 600 none none 1).paidAmount)) ∧
    ((patchStatus baseApp Status.Approved 9).remainingAmount =
      max 0 ((patchStatus baseApp Status.Approved 9).totalAmount -
        (patchStatus baseApp Status.Approved 9).paidAmount)) ∧
    ((reconcileOnRead appPending).remainingAmount =
      max 0 ((reconcileOnRead appPending).totalAmount -
        (reconcileOnRead appPending).paidAmount)) :=
  ⟨c2_amended_remaining_invariant.1 baseApp 600 none none 1
      (savedAfterRepayment baseApp 600 none none 1)
      (by norm_num [recordRepayment, savedAfterRepayment, manualReconcile, baseApp]),
   c2_amended_remaining_invariant.2.2.1 baseApp 9 rfl (by norm_num [baseApp])
      (by norm_num [baseApp]),
   c2_amended_remaining_invariant.2.2.2 appPending rfl rfl rfl
      (by norm_num [appPending, baseApp]) (by norm_num [appPending, baseApp])⟩

/-- C7 counterexample: on the legacy record `appLegacyPaid` (approved,
`totalAmount = 0`, `paidAmount = 50`) the read-triggered reconciliation
stores `remainingAmount = 100 = totalAmount`, not
`totalAmount − paidAmount = 50` as the claim states. -/
theorem c7_counterexample_read_backfill_ignores_paid :
    appLegacyPaid.status = Status.Approved ∧
    appLegacyPaid.totalAmount = 0 ∧
    (reconcileOnRead appLegacyPaid).totalAmount = 100 ∧
    (reconcileOnRead appLegacyPaid).remainingAmount = 100 ∧
    (reconcileOnRead appLegacyPaid).remainingAmount ≠
      max 0 ((reconcileOnRead appLegacyPaid).totalAmount -
        appLegacyPaid.paidAmount) := by
  refine ⟨rfl, rfl, ?_, ?_, ?_⟩ <;>
    norm_num [reconcileOnRead, appLegacyPaid, baseApp, max_def]

/-- C7 amended: for an application with zero `totalAmount`, the
manual-repayment reconciliation computes `totalAmount = loanAmount +
loanAmount × interestRate / 100` and — when `remainingAmount` was unset
or negative — sets `remainingAmount = totalAmount − paidAmount` floored
at `0`; the read-path reconciliation (approved, nonzero principal)
computes the same `totalAmount` but sets `remainingAmount` to the full
`totalAmount`, without subtracting `paidAmount`, when it was zero. -/
theorem c7_amended_backfill_paths (application : LoanApplication) :
    (application.totalAmount = 0 →
      (manualReconcile application).totalAmount =
        application.loanAmount +
          application.loanAmount * application.interestRate / 100 ∧
      ((application.remainingAmount = 0 ∨ application.remainingAmount < 0) →
        (manualReconcile application).remainingAmount =
          max 0 ((manualReconcile application).totalAmount -
            application.paidAmount))) ∧
    (application.status = Status.Approved → application.totalAmount = 0 →
      application.loanAmount ≠ 0 →
      (reconcileOnRead application).totalAmount =
        application.loanAmount +
          application.loanAmount * application.interestRate / 100 ∧
      (application.remainingAmount = 0 →
        (reconcileOnRead application).remainingAmount =
          (reconcileOnRead application).totalAmount)) := by
  constructor
  · intro h
    constructor
    · simp only [manualReconcile, if_pos h]
      split_ifs <;> rfl
    · intro h2
      simp only [manualReconcile, if_pos h]
      rw [if_pos (by simpa using h2)]
      simp only
      split_ifs with h3
      · rw [max_eq_left (by linarith)]
      · rw [max_eq_right (by linarith)]
  · intro hs h hl
    refine ⟨?_, ?_⟩
    · simp only [reconcileOnRead, if_pos (by exact ⟨h, hs, hl⟩ :
        application.totalAmount = 0 ∧ application.status = Status.Approved ∧
          application.loanAmount ≠ 0)]
      split_ifs <;> rfl
    · intro h2
      simp only [reconcileOnRead, if_pos (by exact ⟨h, hs, hl⟩ :
        application.totalAmount = 0 ∧ application.status = Status.Approved ∧
          application.loanAmount ≠ 0)]
      rw [if_pos (by simpa using h2)]

/-- C7 amended witness: both reconcilers applied to the legacy record
`appLegacyPaid` — the manual path would floor against `paidAmount`, the
read path stores the full total. -/
theorem c7_amended_backfill_paths_witness :
    ((manualReconcile appLegacyPaid).totalAmount = 100 ∧
      (appLegacyPaid.remainingAmount = 0 ∨ appLegacyPaid.remainingAmount < 0 →
        (manualReconcile appLegacyPaid).remainingAmount =
          max 0 ((manualReconcile appLegacyPaid).totalAmount -
            appLegacyPaid.paidAmount))) ∧
    ((reconcileOnRead appLegacyPaid).totalAmount = 100 ∧
      (appLegacyPaid.remainingAmount = 0 →
        (reconcileOnRead appLegacyPaid).remainingAmount =
          (reconcileOnRead appLegacyPaid).totalAmount)) := by
  have h1 := (c7_amended_backfill_paths appLegacyPaid).1 rfl
  have h2 := (c7_amended_backfill_paths appLegacyPaid).2 rfl rfl
    (by norm_num [appLegacyPaid, baseApp])
  refine ⟨⟨?_, h1.2⟩, ⟨?_, h2.2⟩⟩
  · rw [h1.1]; norm_num [appLegacyPaid, baseApp]
  · rw [h2.1]; norm_num [appLegacyPaid, baseApp]

/-- A record whose `totalAmount` is already nonzero is untouched by the
read-path backfill. -/
theorem reconcileOnRead_canonical (application : LoanApplication)
    (h : application.totalAmount ≠ 0) : reconcileOnRead application = application := by
  simp [reconcileOnRead, h]

/-- The persisted read-path backfill is idempotent. -/
theorem reconcileOnRead_idem (application : LoanApplication) :
    reconcileOnRead (reconcileOnRead application) = reconcileOnRead application := by
  by_cases h : application.totalAmount = 0 ∧ application.status = Status.Approved ∧
      application.loanAmount ≠ 0
  · obtain ⟨h1, h2, h3⟩ := h
    by_cases hT : application.loanAmount +
        application.loanAmount * application.interestRate / 100 = 0
    · by_cases hR : application.remainingAmount = 0
      · have e : reconcileOnRead application =
            { application with
                totalAmount := application.loanAmount +
                  application.loanAmount * application.interestRate / 100
                remainingAmount := application.loanAmount +
                  application.loanAmount * application.interestRate / 100 } := by
          simp [reconcileOnRead, h1, h2, h3, hR]
        rw [e]
        simp [reconcileOnRead, hT, h2, h3]
      · have e : reconcileOnRead application =
            { application with
                totalAmount := application.loanAmount +
                  application.loanAmount * application.interestRate / 100 } := by
          simp [reconcileOnRead, h1, h2, h3, hR]
        rw [e]
        simp [reconcileOnRead, hT, h2, h3, hR]
    · by_cases hR : application.remainingAmount = 0
      · have e : reconcileOnRead application =
            { application with
                totalAmount := application.loanAmount +
                  application.loanAmount * application.interestRate / 100
                remainingAmount := application.loanAmount +
                  application.loanAmount * application.interestRate / 100 } := by
          simp [reconcileOnRead, h1, h2, h3, hR]
        rw [e]
        exact reconcileOnRead_canonical _ (by simpa using hT)
      · have e : reconcileOnRead application =
            { application with
                totalAmount := application.loanAmount +
                  application.loanAmount * application.interestRate / 100 } := by
          simp [reconcileOnRead, h1, h2, h3, hR]
        rw [e]
        exact reconcileOnRead_canonical _ (by simpa using hT)
  · have e : reconcileOnRead application = application := by
      simp only [reconcileOnRead, if_neg h]
    rw [e]
    exact e

/-- The full read-path balance view is idempotent as well. -/
theorem reconcileView_idem (x : LoanApplication) :
    reconcileView (reconcileView x) = reconcileView x := by
  by_cases h1 : x.totalAmount = 0
  · by_cases h2 : x.status = Status.Approved ∧ x.loanAmount ≠ 0
    · obtain ⟨h2a, h2b⟩ := h2
      by_cases hC : x.loanAmount + x.loanAmount * x.interestRate / 100 = 0
      · by_cases hD : x.remainingAmount = 0
        · simp [reconcileView, reconcileOnRead, h1, h2a, h2b, hC, hD] <;>
            (split_ifs <;> simp_all)
        · simp [reconcileView, reconcileOnRead, h1, h2a, h2b, hC, hD] <;>
            (split_ifs <;> simp_all) <;> linarith
      · by_cases hD : x.remainingAmount = 0
        · simp [reconcileView, reconcileOnRead, h1, h2a, h2b, hC, hD] <;>
            (split_ifs <;> simp_all)
        · simp [reconcileView, reconcileOnRead, h1, h2a, h2b, hC, hD] <;>
            (split_ifs <;> simp_all)
    · by_cases hL : x.loanAmount = 0
      · by_cases hE : x.remainingAmount = 0 ∨ x.remainingAmount < 0
        · by_cases hF : x.loanAmount - x.paidAmount < 0
          · simp [reconcileView, reconcileOnRead, h1, h2, hL, hE, hF]
          · simp [reconcileView, reconcileOnRead, h1, h2, hL, hE, hF]
        · simp [reconcileView, reconcileOnRead, h1, h2, hL, hE,
            not_or.mp hE]
      · have hs : ¬ x.status = Status.Approved := fun hs => h2 ⟨hs, hL⟩
        by_cases hE : x.remainingAmount = 0 ∨ x.remainingAmount < 0
        · by_cases hF : x.loanAmount - x.paidAmount < 0
          · simp [reconcileView, reconcileOnRead, h1, hs, hL, hE, hF]
          · simp [reconcileView, reconcileOnRead, h1, hs, hL, hE, hF]
        · simp [reconcileView, reconcileOnRead, h1, hs, hL, hE,
            not_or.mp hE]
  · by_cases hE : x.remainingAmount = 0 ∨ x.remainingAmount < 0
    · by_cases hF : x.totalAmount - x.paidAmount < 0
      · simp [reconcileView, reconcileOnRead, h1, hE, hF]
      · simp [reconcileView, reconcileOnRead, h1, hE, hF]
    · simp [reconcileView, reconcileOnRead, h1, hE, not_or.mp hE]

/-- C9: reconciliation is idempotent — the persisted read-path backfill
applied twice equals it applied once, a record whose `totalAmount` is
already nonzero is left entirely unchanged by it, and the full balance
view of the read handler is idempotent as well. -/
theorem c9_reconcile_idempotent :
    (∀ application : LoanApplication,
      reconcileOnRead (reconcileOnRead application) = reconcileOnRead application) ∧
    (∀ application : LoanApplication, application.totalAmount ≠ 0 →
      reconcileOnRead application = application) ∧
    (∀ application : LoanApplication,
      reconcileView (reconcileView application) = reconcileView application) :=
  ⟨reconcileOnRead_idem, reconcileOnRead_canonical, reconcileView_idem⟩

/-- C9 witness: re-reading the canonical `baseApp` (nonzero
`totalAmount`) changes nothing. -/
theorem c9_reconcile_idempotent_witness :
    reconcileOnRead baseApp = baseApp :=
  c9_reconcile_idempotent.2.1 baseApp (by norm_num [baseApp])

/-- C6 amended witness: recording the final `1100` repayment against
`baseApp` yields a record whose `repaymentStatus` matches the derived
form; re-approving `appMidway` stores `Pending`. -/
theorem c6_amended_repaymentStatus_derivation_witness :
    ((savedAfterRepayment baseApp 1100 none none 4).repaymentStatus =
      if (savedAfterRepayment baseApp 1100 none none 4).totalAmount ≤
          (savedAfterRepayment baseApp 1100 none none 4).paidAmount then
        RepaymentStatus.Complete
      else RepaymentStatus.InProgress) ∧
    (patchStatus appMidway Status.Approved 5).repaymentStatus =
      RepaymentStatus.Pending :=
  ⟨c6_amended_repaymentStatus_derivation.1 baseApp 1100 none none 4
      (savedAfterRepayment baseApp 1100 none none 4)
      (by norm_num [recordRepayment, savedAfterRepayment, manualReconcile, baseApp]),
   c6_amended_repaymentStatus_derivation.2.2 appMidway 5⟩
